import Mathlib

/-!
Shallow embedding of the allcrypto-api user-administration backend
(src/main.go): the action-dispatch handler `userActionsHandler`, the
listing handler `listarUsuariosHandler`, the response encoder
`jsonResponse`, and the backing `users` table, together with theorems
settling the specified properties of the dispatcher.
-/

namespace AllCrypto

/-- Embedding of the JSON values that can appear in the decoded request
payload. Go decodes the body into `map[string]interface{}`, so a value is
a string, a number (always decoded as float64, embedded here as a
rational), a boolean, or null. -/
inductive JValue where
  | jstr : String → JValue
  | jnum : ℚ → JValue
  | jbool : Bool → JValue
  | jnull : JValue
  deriving DecidableEq

/-- Decoded request body: the Go `map[string]interface{}` payload,
embedded as an association list (Go maps have unique keys, so the first
match is the only one). -/
abbrev Payload := List (String × JValue)

/-- Map lookup `payload[k]`: the value stored under key `k`, if any. -/
def plookup : Payload → String → Option JValue
  | [], _ => none
  | (k, v) :: rest, key => if k == key then some v else plookup rest key

/-- Go type assertion `v.(string)` with the ok flag discarded (`v, _ :=`):
a missing or non-string value silently yields the zero value `""`. -/
def asString : Option JValue → String
  | some (JValue.jstr s) => s
  | _ => ""

/-- Go type assertion `v.(bool)` with the ok flag discarded: a missing or
non-boolean value silently yields the zero value `false`. -/
def asBool : Option JValue → Bool
  | some (JValue.jbool b) => b
  | _ => false

/-- Go type assertion `v.(float64)` with the ok flag kept (the
`indicacao` extraction): `none` exactly when the value is missing or not
a JSON number. -/
def asNum : Option JValue → Option ℚ
  | some (JValue.jnum q) => some q
  | _ => none

/-- One row of the `users` table (struct `User` of src/main.go). The
`Password` field carries the json tag `"-"`. -/
structure User where
  id : Int
  username : String
  password : String
  isBlocked : Bool
  renewalDate : String
  ip : Option String
  indicacao : Int
  deriving DecidableEq

/-- The `users` table. Rows are kept in insertion order and `dbInsert`
assigns strictly increasing ids from `nextId`, so the stored order is
also the `ORDER BY id` order used by the listing query. -/
structure Store where
  users : List User
  nextId : Int
  deriving DecidableEq

/-- Embedding of the SQL `LOWER()` applied to the username key:
per-character lower-casing. -/
def lowerStr (s : String) : String := ⟨s.data.map Char.toLower⟩

/-- Row predicate of the clause `WHERE LOWER(username) = LOWER($2)`. -/
def umatch (uname : String) (u : User) : Bool :=
  lowerStr u.username == lowerStr uname

/-- Single-row statement `UPDATE users SET ... WHERE LOWER(username) =
LOWER($2)`: rewrites every row whose username matches case-insensitively
and reports the number of matched rows (the driver's RowsAffected). -/
def dbUpdate (s : Store) (uname : String) (f : User → User) : Store × Nat :=
  ({ s with users := s.users.map (fun u => if umatch uname u then f u else u) },
   s.users.countP (umatch uname))

/-- Modelled from the spec: the `users` table schema is not under src/
and §3 of the spec declares username a case-insensitive unique key
enforced by the store, a duplicate insert failing with a store error.
The statement is `INSERT INTO users (username, password, is_blocked,
renewal_date, indicacao) VALUES ($1, $2, false, $3, 0)`: on success it
appends one row with a fresh id, isBlocked false, no ip and indicacao 0,
and reports one affected row. -/
def dbInsert (s : Store) (uname pw rd : String) : Except String (Store × Nat) :=
  if s.users.any (umatch uname) then
    Except.error "duplicate key value violates unique constraint"
  else
    Except.ok
      ({ users := s.users ++
            [{ id := s.nextId, username := uname, password := pw,
               isBlocked := false, renewalDate := rd, ip := none, indicacao := 0 }],
         nextId := s.nextId + 1 }, 1)

/-- Go conversion `int(f)` applied to the decoded float64: truncation
toward zero, i.e. T-division of numerator by denominator. -/
def goTrunc (q : ℚ) : Int := q.num.tdiv q.den

/-- Serialized form of one `User` row under its json tags: `id`,
`username`, `is_blocked`, `renewal_date`, `ip`, `indicacao`. The password
field is tagged `"-"` and has no serialized counterpart. -/
structure UserJson where
  id : Int
  username : String
  is_blocked : Bool
  renewal_date : String
  ip : Option String
  indicacao : Int
  deriving DecidableEq

/-- The envelope struct `Response {message, data omitempty}`: `data` is
populated only on the listing success path, with the serialized rows. -/
structure Response where
  message : String
  data : Option (List UserJson)
  deriving DecidableEq

/-- One HTTP response as written by `jsonResponse`. -/
structure HttpResponse where
  status : Nat
  contentType : String
  body : Response
  deriving DecidableEq

/-- Response encoder `jsonResponse`: sets Content-Type to
application/json, writes the status code and encodes exactly one
envelope. -/
def jsonResponse (statusCode : Nat) (data : Response) : HttpResponse :=
  { status := statusCode, contentType := "application/json", body := data }

/-- Serialization of one row: every field except the untagged password. -/
def userToJson (u : User) : UserJson :=
  { id := u.id, username := u.username, is_blocked := u.isBlocked,
    renewal_date := u.renewalDate, ip := u.ip, indicacao := u.indicacao }

/-- Listing handler `listarUsuariosHandler`: rejects non-GET with 405, otherwise
serializes the whole table (`SELECT id, username, is_blocked,
renewal_date, ip, indicacao FROM users ORDER BY id`; the store keeps rows
in id order) without the password column. -/
def listarUsuariosHandler (method : String) (s : Store) : HttpResponse :=
  if method ≠ "GET" then
    jsonResponse 405 { message := "Método não permitido", data := none }
  else
    jsonResponse 200 { message := "Usuários listados com sucesso",
                       data := some (s.users.map userToJson) }

/-- Observable outcome of one action request: the single response
written, the resulting table, how many store statements were executed,
and the RowsAffected count read from the driver (`none` when no statement
ran or the statement errored). -/
structure HandlerResult where
  response : HttpResponse
  store : Store
  storeCalls : Nat
  rowsAffected : Option Nat
  deriving DecidableEq

/-- Shared tail of `userActionsHandler` (src/main.go lines 326-335): a
store error maps to 500 carrying the cause; otherwise zero affected rows
map to 404 and any other count to 200. -/
def finishExec (action : String) (r : Except String (Store × Nat)) (s : Store) : HandlerResult :=
  match r with
  | Except.error e =>
      { response := jsonResponse 500
          { message := "Erro ao executar ação '" ++ action ++ "': " ++ e, data := none },
        store := s, storeCalls := 1, rowsAffected := none }
  | Except.ok (s1, n) =>
      if n = 0 then
        { response := jsonResponse 404
            { message := "Nenhum usuário encontrado com o nome fornecido.", data := none },
          store := s1, storeCalls := 1, rowsAffected := some n }
      else
        { response := jsonResponse 200
            { message := "Ação '" ++ action ++ "' executada com sucesso!", data := none },
          store := s1, storeCalls := 1, rowsAffected := some n }

/-- Action dispatcher `userActionsHandler` (src/main.go lines 272-337): method check, body
decode (`none` embeds a JSON decode failure), dispatch on the action tag
with Go zero-value field extraction, execution of the single statement,
and outcome classification. -/
def userActionsHandler (method : String) (body : Option Payload) (s : Store) : HandlerResult :=
  if method ≠ "POST" then
    { response := jsonResponse 405 { message := "Método não permitido", data := none },
      store := s, storeCalls := 0, rowsAffected := none }
  else
    match body with
    | none =>
        { response := jsonResponse 400 { message := "Requisição inválida", data := none },
          store := s, storeCalls := 0, rowsAffected := none }
    | some payload =>
        let action := asString (plookup payload "action")
        let username := asString (plookup payload "username")
        if action = "inserirUsuario" then
          let password := asString (plookup payload "password")
          let renewalDate := asString (plookup payload "renewal_date")
          finishExec action (dbInsert s username password renewalDate) s
        else if action = "atualizarSenha" then
          let newPassword := asString (plookup payload "new_password")
          finishExec action
            (Except.ok (dbUpdate s username (fun u => { u with password := newPassword }))) s
        else if action = "bloquearUsuario" then
          let isBlocked := asBool (plookup payload "is_blocked")
          finishExec action
            (Except.ok (dbUpdate s username (fun u => { u with isBlocked := isBlocked }))) s
        else if action = "atualizarRenovacao" then
          let renewalDate := asString (plookup payload "renewal_date")
          finishExec action
            (Except.ok (dbUpdate s username (fun u => { u with renewalDate := renewalDate }))) s
        else if action = "atualizarIndicacao" then
          match asNum (plookup payload "indicacao") with
          | none =>
              { response := jsonResponse 400 { message := "Valor de indicação inválido", data := none },
                store := s, storeCalls := 0, rowsAffected := none }
          | some q =>
              finishExec action
                (Except.ok (dbUpdate s username (fun u => { u with indicacao := goTrunc q }))) s
        else if action = "atualizarIP" then
          let novoIP := asString (plookup payload "novo_ip")
          finishExec action
            (Except.ok (dbUpdate s username (fun u => { u with ip := some novoIP }))) s
        else
          { response := jsonResponse 400 { message := "Ação desconhecida", data := none },
            store := s, storeCalls := 0, rowsAffected := none }

/-- Same row with the password blanked: two tables whose rows agree under
`scrubPassword` differ at most in password values. -/
def scrubPassword (u : User) : User := { u with password := "" }

/-- Concrete row used by the witnesses. -/
def bobUser : User :=
  { id := 1, username := "bob", password := "pw", isBlocked := false,
    renewalDate := "2025-01-01", ip := none, indicacao := 5 }

/-- Concrete one-row table used by the witnesses. -/
def sampleStore : Store := { users := [bobUser], nextId := 2 }

/-- A value that is never a JSON string extracts to the Go zero value. -/
lemma asString_default (ov : Option JValue) (h : ∀ x, ov ≠ some (JValue.jstr x)) :
    asString ov = "" := by
  rcases ov with _ | v
  · rfl
  · rcases v with x | q | b | _
    · exact absurd rfl (h x)
    · rfl
    · rfl
    · rfl

/-- A value that is never a JSON boolean extracts to the Go zero value. -/
lemma asBool_default (ov : Option JValue) (h : ∀ x, ov ≠ some (JValue.jbool x)) :
    asBool ov = false := by
  rcases ov with _ | v
  · rfl
  · rcases v with x | q | b | _
    · rfl
    · rfl
    · exact absurd rfl (h b)
    · rfl

/-- A value that is never a JSON number fails the strict float64 check. -/
lemma asNum_default (ov : Option JValue) (h : ∀ q, ov ≠ some (JValue.jnum q)) :
    asNum ov = none := by
  rcases ov with _ | v
  · rfl
  · rcases v with x | q | b | _
    · rfl
    · exact absurd rfl (h q)
    · rfl
    · rfl

/-- Shape of the shared execution tail on a statement that ran without a
store error: the resulting table is the statement's, exactly one
statement ran, RowsAffected is reported, and the status is 404 on zero
affected rows and 200 otherwise. -/
lemma finishExec_ok (a : String) (s s1 : Store) (n : Nat) :
    (finishExec a (Except.ok (s1, n)) s).store = s1 ∧
    (finishExec a (Except.ok (s1, n)) s).storeCalls = 1 ∧
    (finishExec a (Except.ok (s1, n)) s).rowsAffected = some n ∧
    (finishExec a (Except.ok (s1, n)) s).response.status = (if n = 0 then 404 else 200) := by
  unfold finishExec
  by_cases h : n = 0 <;> simp [h, jsonResponse]

/-- Mapping a function that fixes every non-matching element over a list
with no matching element is the identity. -/
lemma map_ite_id {α : Type} (f : α → α) (p : α → Bool) :
    ∀ l : List α, (∀ a ∈ l, ¬ p a = true) → l.map (fun a => if p a then f a else a) = l := by
  intro l h
  induction l with
  | nil => rfl
  | cons a t ih =>
      simp only [List.mem_cons] at h
      have ha : ¬ p a = true := h a (Or.inl rfl)
      simp only [List.map_cons, if_neg ha]
      rw [ih (fun b hb => h b (Or.inr hb))]

/-- An UPDATE that matches no row leaves the table unchanged. -/
lemma dbUpdate_zero (s : Store) (uname : String) (f : User → User)
    (h : (dbUpdate s uname f).2 = 0) : (dbUpdate s uname f).1 = s := by
  unfold dbUpdate at h ⊢
  simp only at h ⊢
  have hall : ∀ u ∈ s.users, ¬ umatch uname u = true := List.countP_eq_zero.mp h
  cases s with
  | mk users nextId =>
      simp only [Store.mk.injEq]
      exact ⟨map_ite_id f (umatch uname) users hall, trivial⟩

/-- Case-equivalent usernames drive the case-insensitive WHERE clause to
the same row set, so the same UPDATE result. -/
lemma dbUpdate_congr (s : Store) (f : User → User) (u1 u2 : String)
    (h : lowerStr u1 = lowerStr u2) : dbUpdate s u1 f = dbUpdate s u2 f := by
  unfold dbUpdate umatch
  simp only [h]

/-- Looking a key up past a head entry with a different key skips it. -/
lemma plookup_cons_ne (k key : String) (v : JValue) (rest : Payload) (h : key ≠ k) :
    plookup ((k, v) :: rest) key = plookup rest key := by
  have hb : (k == key) = false := beq_eq_false_iff_ne.mpr (Ne.symm h)
  simp [plookup, hb]

/-- C6: a payload whose action tag is none of the six recognized action
strings gets the 400 unknown-action envelope, no store statement runs,
and the table is unchanged. -/
theorem unknown_action_validation_error (p : Payload) (s : Store)
    (h : asString (plookup p "action") ∉
      (["inserirUsuario", "atualizarSenha", "bloquearUsuario", "atualizarRenovacao",
        "atualizarIndicacao", "atualizarIP"] : List String)) :
    (userActionsHandler "POST" (some p) s).response.status = 400 ∧
    (userActionsHandler "POST" (some p) s).response.body.message = "Ação desconhecida" ∧
    (userActionsHandler "POST" (some p) s).storeCalls = 0 ∧
    (userActionsHandler "POST" (some p) s).store = s := by
  simp only [List.mem_cons, List.mem_singleton, not_or] at h
  obtain ⟨h1, h2, h3, h4, h5, h6⟩ := h
  simp [userActionsHandler, h1, h2, h3, h4, h5, h6, jsonResponse]

/-- Closed instance of C6 at the spec's own example input. -/
theorem unknown_action_validation_error_witness :
    (userActionsHandler "POST" (some [("action", JValue.jstr "deleteEverything")])
        sampleStore).response.status = 400 ∧
    (userActionsHandler "POST" (some [("action", JValue.jstr "deleteEverything")])
        sampleStore).response.body.message = "Ação desconhecida" ∧
    (userActionsHandler "POST" (some [("action", JValue.jstr "deleteEverything")])
        sampleStore).storeCalls = 0 ∧
    (userActionsHandler "POST" (some [("action", JValue.jstr "deleteEverything")])
        sampleStore).store = sampleStore :=
  unknown_action_validation_error [("action", JValue.jstr "deleteEverything")] sampleStore
    (by decide)

/-- Truncation toward zero agrees with the floor on nonnegative input. -/
lemma goTrunc_nonneg (q : ℚ) (h : 0 ≤ q) : goTrunc q = ⌊q⌋ := by
  unfold goTrunc
  rw [Rat.floor_def, Int.tdiv_eq_ediv (Rat.num_nonneg.mpr h) (Int.ofNat_nonneg _)]

/-- Truncation toward zero agrees with the ceiling on negative input. -/
lemma goTrunc_neg (q : ℚ) (h : q < 0) : goTrunc q = ⌈q⌉ := by
  unfold goTrunc
  have hq : (0 : ℚ) ≤ -q := by linarith
  have h1 : (-q).num.tdiv (-q).den = ⌊-q⌋ := by
    rw [Rat.floor_def, Int.tdiv_eq_ediv (Rat.num_nonneg.mpr hq) (Int.ofNat_nonneg _)]
  rw [Rat.neg_num, Rat.neg_den] at h1
  have h4 : q.num.tdiv q.den = -((-q.num).tdiv q.den) := by
    rw [← Int.neg_tdiv, neg_neg]
  rw [h4, h1, ← Int.ceil_neg, neg_neg]

/-- C1, counterexample: a set-referral payload carrying the non-integral
number 7/2 (the JSON literal 3.5) is not rejected: the handler answers
200, executes one store statement, and mutates the matched row. -/
theorem referral_half_payload_reaches_store :
    (userActionsHandler "POST"
      (some [("action", JValue.jstr "atualizarIndicacao"),
             ("username", JValue.jstr "bob"),
             ("indicacao", JValue.jnum (mkRat 7 2))]) sampleStore).response.status = 200 ∧
    (userActionsHandler "POST"
      (some [("action", JValue.jstr "atualizarIndicacao"),
             ("username", JValue.jstr "bob"),
             ("indicacao", JValue.jnum (mkRat 7 2))]) sampleStore).storeCalls = 1 ∧
    (userActionsHandler "POST"
      (some [("action", JValue.jstr "atualizarIndicacao"),
             ("username", JValue.jstr "bob"),
             ("indicacao", JValue.jnum (mkRat 7 2))]) sampleStore).store ≠ sampleStore := by
  decide

/-- C1, amended: for the set-referral action, whenever the `indicacao`
payload value is missing or not a JSON number, the handler returns the
validation-error response immediately and performs no store access, so no
row is mutated; every JSON-number payload (integral or not) reaches the
store. -/
theorem referral_non_number_rejected (p : Payload) (s : Store)
    (hact : asString (plookup p "action") = "atualizarIndicacao")
    (hnum : ∀ q, plookup p "indicacao" ≠ some (JValue.jnum q)) :
    (userActionsHandler "POST" (some p) s).response.status = 400 ∧
    (userActionsHandler "POST" (some p) s).response.body.message = "Valor de indicação inválido" ∧
    (userActionsHandler "POST" (some p) s).storeCalls = 0 ∧
    (userActionsHandler "POST" (some p) s).store = s := by
  have hn : asNum (plookup p "indicacao") = none := asNum_default _ hnum
  simp [userActionsHandler, hact, hn, jsonResponse]

/-- Closed instance of the amended C1: a string-valued referral payload
is rejected with 400 and the store is untouched. -/
theorem referral_non_number_rejected_witness :
    (userActionsHandler "POST"
      (some [("action", JValue.jstr "atualizarIndicacao"),
             ("username", JValue.jstr "bob"),
             ("indicacao", JValue.jstr "three")]) sampleStore).response.status = 400 ∧
    (userActionsHandler "POST"
      (some [("action", JValue.jstr "atualizarIndicacao"),
             ("username", JValue.jstr "bob"),
             ("indicacao", JValue.jstr "three")]) sampleStore).response.body.message =
        "Valor de indicação inválido" ∧
    (userActionsHandler "POST"
      (some [("action", JValue.jstr "atualizarIndicacao"),
             ("username", JValue.jstr "bob"),
             ("indicacao", JValue.jstr "three")]) sampleStore).storeCalls = 0 ∧
    (userActionsHandler "POST"
      (some [("action", JValue.jstr "atualizarIndicacao"),
             ("username", JValue.jstr "bob"),
             ("indicacao", JValue.jstr "three")]) sampleStore).store = sampleStore :=
  referral_non_number_rejected
    [("action", JValue.jstr "atualizarIndicacao"),
     ("username", JValue.jstr "bob"),
     ("indicacao", JValue.jstr "three")] sampleStore rfl
    (fun q h => by simp [plookup] at h)

/-- Evaluation of the handler on the create branch. -/
lemma handler_insert (p : Payload) (s : Store)
    (hact : asString (plookup p "action") = "inserirUsuario") :
    userActionsHandler "POST" (some p) s =
      finishExec "inserirUsuario"
        (dbInsert s (asString (plookup p "username")) (asString (plookup p "password"))
          (asString (plookup p "renewal_date"))) s := by
  simp [userActionsHandler, hact]

/-- Evaluation of the handler on the set-password branch. -/
lemma handler_senha (p : Payload) (s : Store)
    (hact : asString (plookup p "action") = "atualizarSenha") :
    userActionsHandler "POST" (some p) s =
      finishExec "atualizarSenha"
        (Except.ok (dbUpdate s (asString (plookup p "username"))
          (fun u => { u with password := asString (plookup p "new_password") }))) s := by
  simp [userActionsHandler, hact]

/-- Evaluation of the handler on the set-blocked branch. -/
lemma handler_bloquear (p : Payload) (s : Store)
    (hact : asString (plookup p "action") = "bloquearUsuario") :
    userActionsHandler "POST" (some p) s =
      finishExec "bloquearUsuario"
        (Except.ok (dbUpdate s (asString (plookup p "username"))
          (fun u => { u with isBlocked := asBool (plookup p "is_blocked") }))) s := by
  simp [userActionsHandler, hact]

/-- Evaluation of the handler on the set-renewal branch. -/
lemma handler_renovacao (p : Payload) (s : Store)
    (hact : asString (plookup p "action") = "atualizarRenovacao") :
    userActionsHandler "POST" (some p) s =
      finishExec "atualizarRenovacao"
        (Except.ok (dbUpdate s (asString (plookup p "username"))
          (fun u => { u with renewalDate := asString (plookup p "renewal_date") }))) s := by
  simp [userActionsHandler, hact]

/-- Evaluation of the handler on the set-referral branch with a numeric
payload. -/
lemma handler_indicacao (p : Payload) (s : Store) (q : ℚ)
    (hact : asString (plookup p "action") = "atualizarIndicacao")
    (hq : asNum (plookup p "indicacao") = some q) :
    userActionsHandler "POST" (some p) s =
      finishExec "atualizarIndicacao"
        (Except.ok (dbUpdate s (asString (plookup p "username"))
          (fun u => { u with indicacao := goTrunc q }))) s := by
  simp [userActionsHandler, hact, hq]

/-- Evaluation of the handler on the set-ip branch. -/
lemma handler_ip (p : Payload) (s : Store)
    (hact : asString (plookup p "action") = "atualizarIP") :
    userActionsHandler "POST" (some p) s =
      finishExec "atualizarIP"
        (Except.ok (dbUpdate s (asString (plookup p "username"))
          (fun u => { u with ip := some (asString (plookup p "novo_ip")) }))) s := by
  simp [userActionsHandler, hact]

/-- Evaluation of the handler on the set-referral branch with a missing
or non-numeric payload value. -/
lemma handler_indicacao_none (p : Payload) (s : Store)
    (hact : asString (plookup p "action") = "atualizarIndicacao")
    (hq : asNum (plookup p "indicacao") = none) :
    userActionsHandler "POST" (some p) s =
      { response := jsonResponse 400 { message := "Valor de indicação inválido", data := none },
        store := s, storeCalls := 0, rowsAffected := none } := by
  simp [userActionsHandler, hact, hq]

/-- Evaluation of the handler on the default branch. -/
lemma handler_unknown (p : Payload) (s : Store)
    (h1 : asString (plookup p "action") ≠ "inserirUsuario")
    (h2 : asString (plookup p "action") ≠ "atualizarSenha")
    (h3 : asString (plookup p "action") ≠ "bloquearUsuario")
    (h4 : asString (plookup p "action") ≠ "atualizarRenovacao")
    (h5 : asString (plookup p "action") ≠ "atualizarIndicacao")
    (h6 : asString (plookup p "action") ≠ "atualizarIP") :
    userActionsHandler "POST" (some p) s =
      { response := jsonResponse 400 { message := "Ação desconhecida", data := none },
        store := s, storeCalls := 0, rowsAffected := none } := by
  simp [userActionsHandler, h1, h2, h3, h4, h5, h6]

/-- C10: every set-referral payload whose `indicacao` value is a JSON
number — integral or not — passes the float64 check, one UPDATE runs, and
the value written is the Go conversion `int(f)`, i.e. the truncation of
the number toward zero (floor for nonnegative input, ceiling for negative
input). -/
theorem numeric_referral_truncated_toward_zero (p : Payload) (s : Store) (q : ℚ)
    (hact : asString (plookup p "action") = "atualizarIndicacao")
    (hq : plookup p "indicacao" = some (JValue.jnum q)) :
    (userActionsHandler "POST" (some p) s).response.status ≠ 400 ∧
    (userActionsHandler "POST" (some p) s).storeCalls = 1 ∧
    (userActionsHandler "POST" (some p) s).store =
      (dbUpdate s (asString (plookup p "username"))
        (fun u => { u with indicacao := goTrunc q })).1 ∧
    (0 ≤ q → goTrunc q = ⌊q⌋) ∧ (q < 0 → goTrunc q = ⌈q⌉) := by
  have hn : asNum (plookup p "indicacao") = some q := by rw [hq]; rfl
  rw [handler_indicacao p s q hact hn]
  obtain ⟨hst, hc, _, hstatus⟩ := finishExec_ok "atualizarIndicacao"
    s (dbUpdate s (asString (plookup p "username"))
        (fun u => { u with indicacao := goTrunc q })).1
    (dbUpdate s (asString (plookup p "username"))
        (fun u => { u with indicacao := goTrunc q })).2
  refine ⟨?_, hc, hst, goTrunc_nonneg q, goTrunc_neg q⟩
  rw [hstatus]
  split <;> simp

/-- Closed instance of C10: the JSON number -2.9 passes the check and the
truncation stored for it is -2. -/
theorem numeric_referral_truncated_witness :
    ((userActionsHandler "POST"
        (some [("action", JValue.jstr "atualizarIndicacao"),
               ("username", JValue.jstr "bob"),
               ("indicacao", JValue.jnum (mkRat (-29) 10))]) sampleStore).response.status ≠ 400 ∧
     (userActionsHandler "POST"
        (some [("action", JValue.jstr "atualizarIndicacao"),
               ("username", JValue.jstr "bob"),
               ("indicacao", JValue.jnum (mkRat (-29) 10))]) sampleStore).storeCalls = 1) ∧
    goTrunc (mkRat (-29) 10) = -2 ∧ goTrunc (mkRat 7 2) = 3 :=
  ⟨⟨(numeric_referral_truncated_toward_zero
      [("action", JValue.jstr "atualizarIndicacao"),
       ("username", JValue.jstr "bob"),
       ("indicacao", JValue.jnum (mkRat (-29) 10))] sampleStore (mkRat (-29) 10) rfl rfl).1,
    (numeric_referral_truncated_toward_zero
      [("action", JValue.jstr "atualizarIndicacao"),
       ("username", JValue.jstr "bob"),
       ("indicacao", JValue.jnum (mkRat (-29) 10))] sampleStore (mkRat (-29) 10) rfl rfl).2.1⟩,
   by decide, by decide⟩

/-- C4: creating a user whose username is case-equivalent to a stored one
fails as an execution error (500) and leaves every record unchanged — it
neither silently succeeds nor overwrites. -/
theorem duplicate_create_execution_error (p : Payload) (s : Store)
    (hact : asString (plookup p "action") = "inserirUsuario")
    (hdup : ∃ u ∈ s.users,
      lowerStr u.username = lowerStr (asString (plookup p "username"))) :
    (userActionsHandler "POST" (some p) s).response.status = 500 ∧
    (userActionsHandler "POST" (some p) s).store = s ∧
    (userActionsHandler "POST" (some p) s).rowsAffected = none := by
  have hany : s.users.any (umatch (asString (plookup p "username"))) = true := by
    rw [List.any_eq_true]
    obtain ⟨u, hu, he⟩ := hdup
    exact ⟨u, hu, by simp [umatch, he]⟩
  rw [handler_insert p s hact]
  simp [dbInsert, hany, finishExec, jsonResponse]

/-- Closed instance of C4: creating "BOB" while "bob" is stored fails
with 500 and the table is unchanged. -/
theorem duplicate_create_execution_error_witness :
    (userActionsHandler "POST"
      (some [("action", JValue.jstr "inserirUsuario"),
             ("username", JValue.jstr "BOB"),
             ("password", JValue.jstr "x"),
             ("renewal_date", JValue.jstr "2026-01-01")]) sampleStore).response.status = 500 ∧
    (userActionsHandler "POST"
      (some [("action", JValue.jstr "inserirUsuario"),
             ("username", JValue.jstr "BOB"),
             ("password", JValue.jstr "x"),
             ("renewal_date", JValue.jstr "2026-01-01")]) sampleStore).store = sampleStore ∧
    (userActionsHandler "POST"
      (some [("action", JValue.jstr "inserirUsuario"),
             ("username", JValue.jstr "BOB"),
             ("password", JValue.jstr "x"),
             ("renewal_date", JValue.jstr "2026-01-01")]) sampleStore).rowsAffected = none :=
  duplicate_create_execution_error
    [("action", JValue.jstr "inserirUsuario"),
     ("username", JValue.jstr "BOB"),
     ("password", JValue.jstr "x"),
     ("renewal_date", JValue.jstr "2026-01-01")] sampleStore rfl (by decide)

/-- C9: the listing response is built only from the password-free
serialization, so two stores whose rows agree once passwords are blanked
produce identical response bodies. -/
theorem listing_independent_of_passwords (method : String) (s1 s2 : Store)
    (h : s1.users.map scrubPassword = s2.users.map scrubPassword) :
    listarUsuariosHandler method s1 = listarUsuariosHandler method s2 := by
  have key : ∀ l : List User, l.map userToJson = (l.map scrubPassword).map userToJson := by
    intro l
    rw [List.map_map]
    rfl
  unfold listarUsuariosHandler
  by_cases hm : method = "GET"
  · subst hm
    simp only [ne_eq, not_true_eq_false, reduceIte]
    rw [jsonResponse, jsonResponse]
    rw [key s1.users, key s2.users, h]
  · simp [hm]

/-- Closed instance of C9: two one-row stores differing only in the
password value get the same listing response. -/
theorem listing_independent_of_passwords_witness :
    listarUsuariosHandler "GET" sampleStore =
      listarUsuariosHandler "GET"
        { users := [{ id := 1, username := "bob", password := "hunter2", isBlocked := false,
                      renewalDate := "2025-01-01", ip := none, indicacao := 5 }], nextId := 2 } :=
  listing_independent_of_passwords "GET" sampleStore
    { users := [{ id := 1, username := "bob", password := "hunter2", isBlocked := false,
                  renewalDate := "2025-01-01", ip := none, indicacao := 5 }], nextId := 2 }
    (by decide)

/-- C2: for the five update actions, two payloads that agree on every
field except the username, whose usernames are case-equivalent, produce
identical outcomes — same response, same resulting record set, same
affected-row count. -/
theorem update_username_case_insensitive (p1 p2 : Payload) (s : Store) (u1 u2 : String)
    (hk : ∀ k, k ≠ "username" → plookup p1 k = plookup p2 k)
    (h1 : plookup p1 "username" = some (JValue.jstr u1))
    (h2 : plookup p2 "username" = some (JValue.jstr u2))
    (hlow : lowerStr u1 = lowerStr u2)
    (hact : asString (plookup p1 "action") ∈
      (["atualizarSenha", "bloquearUsuario", "atualizarRenovacao",
        "atualizarIndicacao", "atualizarIP"] : List String)) :
    userActionsHandler "POST" (some p1) s = userActionsHandler "POST" (some p2) s := by
  have hac : asString (plookup p2 "action") = asString (plookup p1 "action") := by
    rw [hk "action" (by decide)]
  have hu1 : asString (plookup p1 "username") = u1 := by rw [h1]; rfl
  have hu2 : asString (plookup p2 "username") = u2 := by rw [h2]; rfl
  simp only [List.mem_cons, List.mem_singleton, List.not_mem_nil, or_false] at hact
  rcases hact with ha | ha | ha | ha | ha
  · rw [handler_senha p1 s ha, handler_senha p2 s (by rw [hac]; exact ha)]
    rw [hk "new_password" (by decide), hu1, hu2, dbUpdate_congr s _ u1 u2 hlow]
  · rw [handler_bloquear p1 s ha, handler_bloquear p2 s (by rw [hac]; exact ha)]
    rw [hk "is_blocked" (by decide), hu1, hu2, dbUpdate_congr s _ u1 u2 hlow]
  · rw [handler_renovacao p1 s ha, handler_renovacao p2 s (by rw [hac]; exact ha)]
    rw [hk "renewal_date" (by decide), hu1, hu2, dbUpdate_congr s _ u1 u2 hlow]
  · have hiq : plookup p1 "indicacao" = plookup p2 "indicacao" := hk "indicacao" (by decide)
    rcases hn : asNum (plookup p1 "indicacao") with _ | q
    · rw [handler_indicacao_none p1 s ha hn,
        handler_indicacao_none p2 s (by rw [hac]; exact ha) (by rw [← hiq]; exact hn)]
    · rw [handler_indicacao p1 s q ha hn,
        handler_indicacao p2 s q (by rw [hac]; exact ha) (by rw [← hiq]; exact hn)]
      rw [hu1, hu2, dbUpdate_congr s _ u1 u2 hlow]
  · rw [handler_ip p1 s ha, handler_ip p2 s (by rw [hac]; exact ha)]
    rw [hk "novo_ip" (by decide), hu1, hu2, dbUpdate_congr s _ u1 u2 hlow]

/-- Closed instance of C2: blocking "Bob" and blocking "bob" on the same
store produce identical outcomes. -/
theorem update_username_case_insensitive_witness :
    userActionsHandler "POST"
      (some [("action", JValue.jstr "bloquearUsuario"),
             ("username", JValue.jstr "Bob"),
             ("is_blocked", JValue.jbool true)]) sampleStore =
    userActionsHandler "POST"
      (some [("action", JValue.jstr "bloquearUsuario"),
             ("username", JValue.jstr "bob"),
             ("is_blocked", JValue.jbool true)]) sampleStore :=
  update_username_case_insensitive
    [("action", JValue.jstr "bloquearUsuario"),
     ("username", JValue.jstr "Bob"),
     ("is_blocked", JValue.jbool true)]
    [("action", JValue.jstr "bloquearUsuario"),
     ("username", JValue.jstr "bob"),
     ("is_blocked", JValue.jbool true)]
    sampleStore "Bob" "bob"
    (fun k hne => by
      have hu : ("username" == k) = false := beq_eq_false_iff_ne.mpr (Ne.symm hne)
      simp [plookup, hu])
    rfl rfl (by decide) (by decide)

/-- The store component of the execution tail on a successful statement
is the statement's resulting table. -/
lemma finishExec_ok_store (a : String) (s : Store) (pr : Store × Nat) :
    (finishExec a (Except.ok pr) s).store = pr.1 :=
  (finishExec_ok a s pr.1 pr.2).1

/-- An UPDATE never changes the number of rows. -/
lemma dbUpdate_length (s : Store) (uname : String) (f : User → User) :
    (dbUpdate s uname f).1.users.length = s.users.length := by
  simp [dbUpdate]

/-- C5: a successful create appends exactly one record — unblocked,
referral count 0, no IP, and username, password and renewal date taken
from the payload — while every other action preserves the number of
records (nothing else creates and nothing deletes). -/
theorem create_appends_single_default_record (p : Payload) (s : Store) :
    (asString (plookup p "action") = "inserirUsuario" →
      (userActionsHandler "POST" (some p) s).response.status = 200 →
      (userActionsHandler "POST" (some p) s).store.users =
        s.users ++ [{ id := s.nextId, username := asString (plookup p "username"),
                      password := asString (plookup p "password"), isBlocked := false,
                      renewalDate := asString (plookup p "renewal_date"), ip := none,
                      indicacao := 0 }]) ∧
    (asString (plookup p "action") ≠ "inserirUsuario" →
      (userActionsHandler "POST" (some p) s).store.users.length = s.users.length) := by
  constructor
  · intro ha h200
    rw [handler_insert p s ha] at h200 ⊢
    unfold dbInsert at h200 ⊢
    by_cases hany : s.users.any (umatch (asString (plookup p "username"))) = true
    · rw [if_pos hany] at h200
      simp [finishExec, jsonResponse] at h200
    · rw [if_neg hany]
      simp [finishExec, jsonResponse]
  · intro hne
    by_cases h2 : asString (plookup p "action") = "atualizarSenha"
    · rw [handler_senha p s h2, finishExec_ok_store, dbUpdate_length]
    · by_cases h3 : asString (plookup p "action") = "bloquearUsuario"
      · rw [handler_bloquear p s h3, finishExec_ok_store, dbUpdate_length]
      · by_cases h4 : asString (plookup p "action") = "atualizarRenovacao"
        · rw [handler_renovacao p s h4, finishExec_ok_store, dbUpdate_length]
        · by_cases h5 : asString (plookup p "action") = "atualizarIndicacao"
          · rcases hn : asNum (plookup p "indicacao") with _ | q
            · rw [handler_indicacao_none p s h5 hn]
            · rw [handler_indicacao p s q h5 hn, finishExec_ok_store, dbUpdate_length]
          · by_cases h6 : asString (plookup p "action") = "atualizarIP"
            · rw [handler_ip p s h6, finishExec_ok_store, dbUpdate_length]
            · rw [handler_unknown p s hne h2 h3 h4 h5 h6]

/-- Closed instance of C5: creating "carol" on the one-row store appends
exactly the default-initialized record. -/
theorem create_appends_single_default_record_witness :
    (userActionsHandler "POST"
      (some [("action", JValue.jstr "inserirUsuario"),
             ("username", JValue.jstr "carol"),
             ("password", JValue.jstr "p"),
             ("renewal_date", JValue.jstr "2025-06-01")]) sampleStore).store.users =
      sampleStore.users ++
        [{ id := 2, username := "carol", password := "p", isBlocked := false,
           renewalDate := "2025-06-01", ip := none, indicacao := 0 }] :=
  (create_appends_single_default_record
    [("action", JValue.jstr "inserirUsuario"),
     ("username", JValue.jstr "carol"),
     ("password", JValue.jstr "p"),
     ("renewal_date", JValue.jstr "2025-06-01")] sampleStore).1 rfl (by decide)

/-- Outcome classification of the execution tail on any UPDATE branch:
404 exactly on zero affected rows, the table untouched in that case, and
200 otherwise. -/
lemma update_branch_c3 (a u : String) (f : User → User) (s : Store) :
    ((finishExec a (Except.ok (dbUpdate s u f)) s).response.status = 404 ↔
      (finishExec a (Except.ok (dbUpdate s u f)) s).rowsAffected = some 0) ∧
    ((finishExec a (Except.ok (dbUpdate s u f)) s).rowsAffected = some 0 →
      (finishExec a (Except.ok (dbUpdate s u f)) s).store = s) ∧
    ((finishExec a (Except.ok (dbUpdate s u f)) s).response.status ≠ 404 →
      (finishExec a (Except.ok (dbUpdate s u f)) s).response.status = 200) := by
  obtain ⟨hst, -, hra, hstatus⟩ := finishExec_ok a s (dbUpdate s u f).1 (dbUpdate s u f).2
  by_cases hn : (dbUpdate s u f).2 = 0
  · rw [hstatus, if_pos hn, hra, hn]
    exact ⟨by simp, fun _ => by rw [hst, dbUpdate_zero s u f hn], fun h => absurd rfl h⟩
  · rw [hstatus, if_neg hn, hra]
    exact ⟨by simp [hn], fun h => absurd (by simpa using h) hn, fun _ => rfl⟩

/-- C3: whenever the statement of a mutating action runs without a store
error (the outcome is neither a validation error nor an execution error),
the handler answers 404 exactly when the affected-row count is zero — in
which case the record set is unchanged — and 200 otherwise. -/
theorem zero_rows_iff_not_found (p : Payload) (s : Store)
    (h400 : (userActionsHandler "POST" (some p) s).response.status ≠ 400)
    (h500 : (userActionsHandler "POST" (some p) s).response.status ≠ 500) :
    ((userActionsHandler "POST" (some p) s).response.status = 404 ↔
      (userActionsHandler "POST" (some p) s).rowsAffected = some 0) ∧
    ((userActionsHandler "POST" (some p) s).rowsAffected = some 0 →
      (userActionsHandler "POST" (some p) s).store = s) ∧
    ((userActionsHandler "POST" (some p) s).response.status ≠ 404 →
      (userActionsHandler "POST" (some p) s).response.status = 200) := by
  by_cases hA : asString (plookup p "action") = "inserirUsuario"
  · rw [handler_insert p s hA] at h500 ⊢
    unfold dbInsert at h500 ⊢
    by_cases hany : s.users.any (umatch (asString (plookup p "username"))) = true
    · rw [if_pos hany] at h500
      exact absurd (by simp [finishExec, jsonResponse]) h500
    · rw [if_neg hany]
      refine ⟨by simp [finishExec, jsonResponse], fun h => ?_, fun _ => by simp [finishExec, jsonResponse]⟩
      simp [finishExec, jsonResponse] at h
  · by_cases hB : asString (plookup p "action") = "atualizarSenha"
    · rw [handler_senha p s hB]
      exact update_branch_c3 _ _ _ s
    · by_cases hC : asString (plookup p "action") = "bloquearUsuario"
      · rw [handler_bloquear p s hC]
        exact update_branch_c3 _ _ _ s
      · by_cases hD : asString (plookup p "action") = "atualizarRenovacao"
        · rw [handler_renovacao p s hD]
          exact update_branch_c3 _ _ _ s
        · by_cases hE : asString (plookup p "action") = "atualizarIndicacao"
          · rcases hn : asNum (plookup p "indicacao") with _ | q
            · rw [handler_indicacao_none p s hE hn] at h400
              simp [jsonResponse] at h400
            · rw [handler_indicacao p s q hE hn]
              exact update_branch_c3 _ _ _ s
          · by_cases hF : asString (plookup p "action") = "atualizarIP"
            · rw [handler_ip p s hF]
              exact update_branch_c3 _ _ _ s
            · rw [handler_unknown p s hA hB hC hD hE hF] at h400
              simp [jsonResponse] at h400

/-- Closed instance of C3: blocking a username nobody has answers 404
with zero affected rows and leaves the store unchanged. -/
theorem zero_rows_iff_not_found_witness :
    ((userActionsHandler "POST"
        (some [("action", JValue.jstr "bloquearUsuario"),
               ("username", JValue.jstr "nobody"),
               ("is_blocked", JValue.jbool true)]) sampleStore).response.status = 404 ↔
      (userActionsHandler "POST"
        (some [("action", JValue.jstr "bloquearUsuario"),
               ("username", JValue.jstr "nobody"),
               ("is_blocked", JValue.jbool true)]) sampleStore).rowsAffected = some 0) ∧
    ((userActionsHandler "POST"
        (some [("action", JValue.jstr "bloquearUsuario"),
               ("username", JValue.jstr "nobody"),
               ("is_blocked", JValue.jbool true)]) sampleStore).rowsAffected = some 0 →
      (userActionsHandler "POST"
        (some [("action", JValue.jstr "bloquearUsuario"),
               ("username", JValue.jstr "nobody"),
               ("is_blocked", JValue.jbool true)]) sampleStore).store = sampleStore) ∧
    ((userActionsHandler "POST"
        (some [("action", JValue.jstr "bloquearUsuario"),
               ("username", JValue.jstr "nobody"),
               ("is_blocked", JValue.jbool true)]) sampleStore).response.status ≠ 404 →
      (userActionsHandler "POST"
        (some [("action", JValue.jstr "bloquearUsuario"),
               ("username", JValue.jstr "nobody"),
               ("is_blocked", JValue.jbool true)]) sampleStore).response.status = 200) :=
  zero_rows_iff_not_found
    [("action", JValue.jstr "bloquearUsuario"),
     ("username", JValue.jstr "nobody"),
     ("is_blocked", JValue.jbool true)] sampleStore (by decide) (by decide)

/-- Every response built by the execution tail carries the JSON content
type and one of the statuses 200, 404, 500. -/
lemma finishExec_shape (a : String) (r : Except String (Store × Nat)) (s : Store) :
    (finishExec a r s).response.contentType = "application/json" ∧
    (finishExec a r s).response.status ∈ ([200, 404, 500] : List Nat) := by
  rcases r with e | ⟨s1, n⟩
  · exact ⟨rfl, by simp [finishExec, jsonResponse]⟩
  · by_cases hn : n = 0 <;> simp [finishExec, jsonResponse, hn]

/-- On a decoded POST body the handler either runs one statement and
finishes through the execution tail, or answers a 400 validation error
with the store untouched. -/
lemma handler_post_shape (p : Payload) (s : Store) :
    (∃ a r, userActionsHandler "POST" (some p) s = finishExec a r s) ∨
    (∃ msg, userActionsHandler "POST" (some p) s =
      { response := jsonResponse 400 { message := msg, data := none },
        store := s, storeCalls := 0, rowsAffected := none }) := by
  by_cases h1 : asString (plookup p "action") = "inserirUsuario"
  · exact Or.inl ⟨_, _, handler_insert p s h1⟩
  by_cases h2 : asString (plookup p "action") = "atualizarSenha"
  · exact Or.inl ⟨_, _, handler_senha p s h2⟩
  by_cases h3 : asString (plookup p "action") = "bloquearUsuario"
  · exact Or.inl ⟨_, _, handler_bloquear p s h3⟩
  by_cases h4 : asString (plookup p "action") = "atualizarRenovacao"
  · exact Or.inl ⟨_, _, handler_renovacao p s h4⟩
  by_cases h5 : asString (plookup p "action") = "atualizarIndicacao"
  · rcases hn : asNum (plookup p "indicacao") with _ | q
    · exact Or.inr ⟨_, handler_indicacao_none p s h5 hn⟩
    · exact Or.inl ⟨_, _, handler_indicacao p s q h5 hn⟩
  by_cases h6 : asString (plookup p "action") = "atualizarIP"
  · exact Or.inl ⟨_, _, handler_ip p s h6⟩
  exact Or.inr ⟨_, handler_unknown p s h1 h2 h3 h4 h5 h6⟩

/-- C7: both endpoints answer every request with exactly one JSON
envelope (the handlers return a single response value on every path),
always with the JSON content type; the action endpoint's status is one of
200, 400, 404, 405, 500 and is 405 exactly when the method is not POST
before anything else is examined; the listing endpoint answers 405 to any
non-GET method. -/
theorem single_json_envelope_per_request (method : String) (b : Option Payload) (s : Store) :
    (userActionsHandler method b s).response.contentType = "application/json" ∧
    (userActionsHandler method b s).response.status ∈ ([200, 400, 404, 405, 500] : List Nat) ∧
    (method ≠ "POST" → (userActionsHandler method b s).response.status = 405) ∧
    (listarUsuariosHandler method s).contentType = "application/json" ∧
    (listarUsuariosHandler method s).status ∈ ([200, 405] : List Nat) ∧
    (method ≠ "GET" → (listarUsuariosHandler method s).status = 405) := by
  have hlist : (listarUsuariosHandler method s).contentType = "application/json" ∧
      (listarUsuariosHandler method s).status ∈ ([200, 405] : List Nat) ∧
      (method ≠ "GET" → (listarUsuariosHandler method s).status = 405) := by
    by_cases hg : method = "GET"
    · subst hg
      exact ⟨rfl, by simp [listarUsuariosHandler, jsonResponse], fun h => absurd rfl h⟩
    · rw [show listarUsuariosHandler method s =
          jsonResponse 405 { message := "Método não permitido", data := none } by
            simp [listarUsuariosHandler, hg]]
      exact ⟨rfl, by simp [jsonResponse], fun _ => rfl⟩
  by_cases hm : method = "POST"
  · subst hm
    have hmain : (userActionsHandler "POST" b s).response.contentType = "application/json" ∧
        (userActionsHandler "POST" b s).response.status ∈ ([200, 400, 404, 405, 500] : List Nat) := by
      rcases b with _ | p
      · exact ⟨rfl, by simp [userActionsHandler, jsonResponse]⟩
      · rcases handler_post_shape p s with ⟨a, r, hr⟩ | ⟨msg, hr⟩
        · rw [hr]
          obtain ⟨hct, hst⟩ := finishExec_shape a r s
          refine ⟨hct, ?_⟩
          simp only [List.mem_cons, List.not_mem_nil, or_false] at hst ⊢
          tauto
        · rw [hr]
          exact ⟨rfl, by simp [jsonResponse]⟩
    exact ⟨hmain.1, hmain.2, fun h => absurd rfl h, hlist.1, hlist.2.1, hlist.2.2⟩
  · rw [show userActionsHandler method b s =
        { response := jsonResponse 405 { message := "Método não permitido", data := none },
          store := s, storeCalls := 0, rowsAffected := none } by
          simp [userActionsHandler, hm]]
    exact ⟨rfl, by simp [jsonResponse], fun _ => rfl, hlist.1, hlist.2.1, hlist.2.2⟩

/-- Closed instance of C7: a PUT to the action endpoint gets the single
405 JSON envelope. -/
theorem single_json_envelope_per_request_witness :
    (userActionsHandler "PUT" none sampleStore).response.contentType = "application/json" ∧
    (userActionsHandler "PUT" none sampleStore).response.status = 405 ∧
    (listarUsuariosHandler "PUT" sampleStore).status = 405 :=
  ⟨(single_json_envelope_per_request "PUT" none sampleStore).1,
   (single_json_envelope_per_request "PUT" none sampleStore).2.2.1 (by decide),
   (single_json_envelope_per_request "PUT" none sampleStore).2.2.2.2.2 (by decide)⟩

/-- C8: for every recognized action, a payload field that is missing or
has the wrong JSON type is silently replaced by its Go zero value (empty
string, false) and the statement still executes with that value; only the
referral-count field is strictly validated, its absence or wrong type
stopping the request with 400 before any store access. -/
theorem missing_fields_default_to_zero_values (p : Payload) (s : Store) :
    (asString (plookup p "action") = "atualizarSenha" →
      (∀ x, plookup p "new_password" ≠ some (JValue.jstr x)) →
      userActionsHandler "POST" (some p) s =
        finishExec "atualizarSenha"
          (Except.ok (dbUpdate s (asString (plookup p "username"))
            (fun u => { u with password := "" }))) s) ∧
    (asString (plookup p "action") = "bloquearUsuario" →
      (∀ x, plookup p "is_blocked" ≠ some (JValue.jbool x)) →
      userActionsHandler "POST" (some p) s =
        finishExec "bloquearUsuario"
          (Except.ok (dbUpdate s (asString (plookup p "username"))
            (fun u => { u with isBlocked := false }))) s) ∧
    (asString (plookup p "action") = "atualizarRenovacao" →
      (∀ x, plookup p "renewal_date" ≠ some (JValue.jstr x)) →
      userActionsHandler "POST" (some p) s =
        finishExec "atualizarRenovacao"
          (Except.ok (dbUpdate s (asString (plookup p "username"))
            (fun u => { u with renewalDate := "" }))) s) ∧
    (asString (plookup p "action") = "atualizarIP" →
      (∀ x, plookup p "novo_ip" ≠ some (JValue.jstr x)) →
      userActionsHandler "POST" (some p) s =
        finishExec "atualizarIP"
          (Except.ok (dbUpdate s (asString (plookup p "username"))
            (fun u => { u with ip := some "" }))) s) ∧
    (asString (plookup p "action") = "inserirUsuario" →
      (∀ x, plookup p "password" ≠ some (JValue.jstr x)) →
      (∀ x, plookup p "renewal_date" ≠ some (JValue.jstr x)) →
      userActionsHandler "POST" (some p) s =
        finishExec "inserirUsuario"
          (dbInsert s (asString (plookup p "username")) "" "") s) ∧
    (asString (plookup p "action") = "atualizarIndicacao" →
      (∀ q, plookup p "indicacao" ≠ some (JValue.jnum q)) →
      (userActionsHandler "POST" (some p) s).response.status = 400 ∧
      (userActionsHandler "POST" (some p) s).storeCalls = 0) := by
  refine ⟨?_, ?_, ?_, ?_, ?_, ?_⟩
  · intro ha hm
    rw [handler_senha p s ha, asString_default _ hm]
  · intro ha hm
    rw [handler_bloquear p s ha, asBool_default _ hm]
  · intro ha hm
    rw [handler_renovacao p s ha, asString_default _ hm]
  · intro ha hm
    rw [handler_ip p s ha, asString_default _ hm]
  · intro ha hm1 hm2
    rw [handler_insert p s ha, asString_default _ hm1, asString_default _ hm2]
  · intro ha hm
    rw [handler_indicacao_none p s ha (asNum_default _ hm)]
    exact ⟨rfl, rfl⟩

/-- Closed instance of C8: a set-password request without the
new_password field runs the UPDATE with the empty string. -/
theorem missing_fields_default_to_zero_values_witness :
    userActionsHandler "POST"
      (some [("action", JValue.jstr "atualizarSenha"),
             ("username", JValue.jstr "bob")]) sampleStore =
      finishExec "atualizarSenha"
        (Except.ok (dbUpdate sampleStore "bob" (fun u => { u with password := "" })))
        sampleStore :=
  (missing_fields_default_to_zero_values
    [("action", JValue.jstr "atualizarSenha"),
     ("username", JValue.jstr "bob")] sampleStore).1 rfl
    (fun x h => by simp [plookup] at h)

end AllCrypto
